import Mathlib

/-!
Verification of the swarm-shield repository specification against the code
under src/ (the dashboard client, its pages, and the architecture docs).

Each TypeScript interface of the dashboard API client (src/unnamed/part_002,
the api module) is embedded as a Lean structure with the same field names,
and the list of its field names is recorded as a separate definition so that
wire-shape statements can be settled by computation.  The page-level logic
(CIGate checkPackage, the api request helper, the NetworkGraph graphData
builder) is embedded as pure functions over explicit state.  Components of
the repository that are not under src/ (the CI agent policy engine and the
credential codec of packages/shared) are modelled from the spec and the
architecture document, as marked in their doc comments.
-/

namespace SwarmShield

/-- Incident severity, embedded from the union type of the Incident
interface in the api module: critical, high, medium, low. -/
inductive Severity where
  | critical
  | high
  | medium
  | low
deriving DecidableEq

/-- The wire string of a severity value, exactly the TypeScript literals. -/
def Severity.wireName : Severity → String
  | .critical => "critical"
  | .high => "high"
  | .medium => "medium"
  | .low => "low"

/-- Incident status, embedded from the union type of the Incident interface
in the api module: detected, verified, false_positive, mitigated. -/
inductive Status where
  | detected
  | verified
  | false_positive
  | mitigated
deriving DecidableEq

/-- The wire string of a status value, exactly the TypeScript literals. -/
def Status.wireName : Status → String
  | .detected => "detected"
  | .verified => "verified"
  | .false_positive => "false_positive"
  | .mitigated => "mitigated"

/-- A status blocks CI when it is detected or verified (spec section 4.5
step 1; false_positive and mitigated incidents are never blocking). -/
def Status.isBlocking : Status → Bool
  | .detected => true
  | .verified => true
  | .false_positive => false
  | .mitigated => false

/-- RiskIndicator, embedded from the interface of the api module.  The
TypeScript number confidence is modelled as a rational. -/
structure RiskIndicator where
  type : String
  description : String
  confidence : Rat
  evidence : Option String
deriving DecidableEq

/-- Incident, embedded field for field from the Incident interface of the
api module (src/unnamed/part_002, lines 5-18). -/
structure Incident where
  id : String
  package_name : String
  version : String
  severity : Severity
  status : Status
  title : String
  description : String
  indicators : List RiskIndicator
  affected_projects : List String
  credentials : List String
  created_at : String
  updated_at : String
deriving DecidableEq

/-- The proof sub-object of the Credential interface of the api module:
fields type, signature, verificationMethod. -/
structure CredProof where
  type : String
  signature : String
  verificationMethod : String
deriving DecidableEq

/-- Credential, embedded from the Credential interface of the api module
(src/unnamed/part_002, lines 27-40).  The TypeScript open records subject
and claims are modelled as association lists. -/
structure Credential where
  id : String
  type : String
  issuer_did : String
  subject : List (String × String)
  issuance_date : String
  expiration_date : Option String
  claims : List (String × String)
  proof : CredProof
deriving DecidableEq

/-- Agent, embedded from the Agent interface of the api module. -/
structure Agent where
  id : String
  did : String
  name : String
  capabilities : List String
  endpoint : Option String
  last_seen : String
  status : String
deriving DecidableEq

/-- One attestation entry of the CICheckResult interface of the api
module (the inline array element type at lines 57-63). -/
structure AttestationInfo where
  id : String
  issuer : String
  valid : Bool
  reason : String
  expires : Option String
deriving DecidableEq

/-- CICheckResult, embedded from the interface of the api module
(src/unnamed/part_002, lines 52-64), the wire response of the
/ci/check-update endpoint. -/
structure CICheckResult where
  allowed : Bool
  reason : String
  required_credentials : List String
  blocking_incidents : List String
  attestations : List AttestationInfo
deriving DecidableEq

/-- CredentialVerification, embedded from the interface of the api module
(src/unnamed/part_002, lines 66-71), the wire response of the
/credentials/:id/verify endpoint. -/
structure CredentialVerification where
  credential_id : String
  signature_valid : Bool
  issuer_verified : Bool
  issuer_did : String
deriving DecidableEq

/-- Field names of the CICheckResult interface, in source order. -/
def ciCheckResultFields : List String :=
  ["allowed", "reason", "required_credentials", "blocking_incidents", "attestations"]

/-- Field names of the Decision structure as the spec section 4.5 words
them (the claimed wire contract). -/
def specDecisionFields : List String :=
  ["allowed", "reason", "blockingIncidents", "requiredCredentialTypes",
   "attestationsConsidered"]

/-- Fields of the CI check result that the CIGate page actually reads
(src/unnamed/part_001: result.allowed, result.reason,
result.blocking_incidents, result.required_credentials,
result.attestations). -/
def ciGatePageAccessedFields : List String :=
  ["allowed", "reason", "blocking_incidents", "required_credentials", "attestations"]

/-- Field names of the CredentialVerification interface, in source order. -/
def credentialVerificationFields : List String :=
  ["credential_id", "signature_valid", "issuer_verified", "issuer_did"]

/-- The verification result field names as the spec sections 4.1 and 6
word them. -/
def specVerificationFields : List String :=
  ["signatureValid", "issuerTrusted"]

/-- Keys of the fallback CredentialVerification object literal built in
IncidentDetail.tsx (lines 41-46) when the verify call fails. -/
def incidentDetailFallbackFields : List String :=
  ["credential_id", "signature_valid", "issuer_verified", "issuer_did"]

/-- Field names of the Credential interface of the api module. -/
def credentialFields : List String :=
  ["id", "type", "issuer_did", "subject", "issuance_date", "expiration_date",
   "claims", "proof"]

/-- Field names of the proof sub-object of the Credential interface. -/
def credentialProofFields : List String :=
  ["type", "signature", "verificationMethod"]

/-- Credential field names as the spec section 3 words them. -/
def specCredentialFields : List String :=
  ["id", "type", "issuerIdentity", "subject", "issuedAt", "expiresAt",
   "claims", "proof"]

/-- Proof field names as the spec section 3 words them. -/
def specCredentialProofFields : List String :=
  ["algorithm", "verificationKeyRef", "signature"]

/-- Top-level keys of the Base Credential Structure JSON in
docs/architecture.md (lines 145-165). -/
def docsCredentialFields : List String :=
  ["id", "type", "issuer_did", "subject", "issuance_date", "expiration_date",
   "claims", "proof"]

/-- Keys of the proof object of the Base Credential Structure JSON in
docs/architecture.md. -/
def docsCredentialProofFields : List String :=
  ["type", "created", "verificationMethod", "signature"]

/-- The closed credential-type set as the spec section 3 words it. -/
def specCredentialTypeNames : List String :=
  ["RiskFinding", "VerifiedIncident", "FalsePositive", "SafeToUseAttestation"]

/-- The credential type names of the credential-type table in
docs/architecture.md (lines 169-174). -/
def docsCredentialTypeNames : List String :=
  ["RiskFindingCredential", "VerifiedIncidentCredential",
   "FalsePositiveCredential", "SafeToUseAttestation"]

/-- The credential-type string literals the Dashboard page compares
cred.type against (Dashboard.tsx lines 343-348). -/
def dashboardCredTypeLiterals : List String :=
  ["SafeToUseAttestation", "RiskFindingCredential", "VerifiedIncidentCredential"]

/-- The credential-type string literals the IncidentDetail page compares
cred.type against. -/
def incidentDetailCredTypeLiterals : List String :=
  ["SafeToUseAttestation", "VerifiedIncidentCredential", "FalsePositiveCredential"]

/-- Modelled from the spec: the CredentialType enum lives in
packages/shared, which is not under src/; the constructors follow the
credential-type table of docs/architecture.md and the literals the
dashboard pages compare against. -/
inductive CredentialType where
  | riskFinding
  | verifiedIncident
  | falsePositive
  | safeToUse
deriving DecidableEq

/-- The wire string of each credential type, from the docs table and the
dashboard literals. -/
def CredentialType.wireName : CredentialType → String
  | .riskFinding => "RiskFindingCredential"
  | .verifiedIncident => "VerifiedIncidentCredential"
  | .falsePositive => "FalsePositiveCredential"
  | .safeToUse => "SafeToUseAttestation"

/-- The severity values of the api module union type. -/
def severityWireNames : List String := ["critical", "high", "medium", "low"]

/-- The status values of the api module union type. -/
def statusWireNames : List String :=
  ["detected", "verified", "false_positive", "mitigated"]

/-- The severity filter buttons of the Incidents page
(Incidents.tsx line 113). -/
def incidentsPageSeverityFilters : List String :=
  ["all", "critical", "high", "medium", "low"]

/-- The status filter buttons of the Incidents page
(Incidents.tsx line 127). -/
def incidentsPageStatusFilters : List String :=
  ["detected", "verified", "false_positive", "mitigated"]

/-- A fetch response as the request helper of the api module observes it:
the ok flag, the numeric HTTP status, and the body delivered by res.json
(modelled as the already-parsed value, since every claim concerns the
status handling of the helper, not JSON lexing). -/
structure FetchResponse (α : Type) where
  ok : Bool
  status : Nat
  jsonBody : α
deriving DecidableEq

/-- The request helper of the api module (src/unnamed/part_002, lines
73-85): throw an Error whose message is "API error: " followed by the
status when the response is not ok, otherwise return the parsed body. -/
def request {α : Type} (res : FetchResponse α) : Except String α :=
  if !res.ok then
    Except.error ("API error: " ++ toString res.status)
  else
    Except.ok res.jsonBody

/-- The component state of the CIGate page that checkPackage touches
(src/unnamed/part_001, lines 7-12). -/
structure CIGateState where
  projectId : String
  packageName : String
  version : String
  loading : Bool
  result : Option CICheckResult
  error : Option String
deriving DecidableEq

/-- The validation message of checkPackage. -/
def requiredFieldsError : String := "Package name and version are required"

/-- The failure message of checkPackage when the api call rejects. -/
def checkFailedError : String :=
  "Failed to check package. Make sure the CI agent is running."

/-- Result of one run of checkPackage: the final component state and
whether api.checkCI was invoked. -/
structure CheckRun where
  state : CIGateState
  apiCalled : Bool
deriving DecidableEq

/-- checkPackage of the CIGate page (src/unnamed/part_001, lines 14-32).
In JavaScript the guard !packageName || !version is taken exactly when one
of the two string states is empty.  The asynchronous api call is modelled
by its outcome: on success the result is stored, on failure the failure
message is stored; the finally block clears loading either way. -/
def checkPackage (s : CIGateState) (apiResponse : Except Unit CICheckResult) :
    CheckRun :=
  if s.packageName = "" ∨ s.version = "" then
    { state := { s with error := some requiredFieldsError }, apiCalled := false }
  else
    match apiResponse with
    | Except.ok res =>
        { state := { s with loading := false, error := none, result := some res }
          apiCalled := true }
    | Except.error _ =>
        { state :=
            { s with loading := false, error := some checkFailedError, result := none }
          apiCalled := true }

/-- Node kind of the NetworkGraph nodes: the union hub, agent, incident
(src/unnamed/part_004, line 15). -/
inductive GNodeType where
  | hub
  | agent
  | incident
deriving DecidableEq

/-- Link kind of the NetworkGraph links: the union agent, incident
(src/unnamed/part_004, line 26). -/
inductive GLinkType where
  | agent
  | incident
deriving DecidableEq

/-- A graph node as graphData builds it (the optional x and y layout
coordinates are injected later by the force engine and never set by
graphData, so they are omitted). -/
structure GraphNode where
  id : String
  name : String
  type : GNodeType
  status : Option String
  severity : Option String
  val : Nat
deriving DecidableEq

/-- A graph link as graphData builds it. -/
structure GraphLink where
  source : String
  target : String
  type : GLinkType
deriving DecidableEq

/-- The node and link lists returned by the graphData memo. -/
structure GraphData where
  nodes : List GraphNode
  links : List GraphLink
deriving DecidableEq

/-- The central hub node (src/unnamed/part_004, lines 38-43). -/
def hubNode : GraphNode :=
  { id := "hub", name := "SWARM SHIELD", type := GNodeType.hub,
    status := none, severity := none, val := 30 }

/-- The node pushed for one agent (src/unnamed/part_004, lines 47-53). -/
def mkAgentNode (a : Agent) : GraphNode :=
  { id := a.did, name := a.name, type := GNodeType.agent,
    status := some a.status, severity := none, val := 15 }

/-- The size of an incident node: 20 for critical, 15 for high, 10
otherwise (src/unnamed/part_004, line 68). -/
def incidentVal (i : Incident) : Nat :=
  if i.severity = Severity.critical then 20
  else if i.severity = Severity.high then 15
  else 10

/-- The node pushed for one incident (src/unnamed/part_004, lines 63-69). -/
def mkIncidentNode (i : Incident) : GraphNode :=
  { id := "incident-" ++ i.id, name := i.package_name ++ "@" ++ i.version,
    type := GNodeType.incident, status := none,
    severity := some i.severity.wireName, val := incidentVal i }

/-- The scanner lookup of graphData (src/unnamed/part_004, line 72): the
first agent whose capabilities include security_scan. -/
def findScanner (agents : List Agent) : Option Agent :=
  agents.find? (fun a => a.capabilities.contains "security_scan")

/-- graphData of the NetworkGraph component (src/unnamed/part_004, lines
33-83): one hub node, one node and one hub link per agent, one node per
incident of the first five, and a link from the scanner agent to each of
those incidents when a scanner exists. -/
def graphData (agents : List Agent) (incidents : List Incident) : GraphData :=
  { nodes :=
      hubNode ::
        (agents.map mkAgentNode ++ (incidents.take 5).map mkIncidentNode)
    links :=
      agents.map (fun a =>
          { source := "hub", target := a.did, type := GLinkType.agent }) ++
        (incidents.take 5).filterMap (fun i =>
          (findScanner agents).map (fun sc =>
            { source := sc.did, target := "incident-" ++ i.id,
              type := GLinkType.incident })) }

/-- Modelled from the spec: the attestation record the CI agent evaluates
(its implementation under services/ is not under src/).  Per spec section
4.5 it carries the covered package and version, the two codec verification
booleans, and the expiry instant; timestamps are modelled as naturals. -/
structure AttestationRecord where
  id : String
  issuer : String
  package_name : String
  version : String
  signature_valid : Bool
  issuer_trusted : Bool
  expiration_date : Nat
deriving DecidableEq

/-- Modelled from the spec: an attestation counts as valid only if
signature valid, issuer trusted, and not expired at evaluation time
(spec section 4.5 step 3). -/
def attestationValid (now : Nat) (a : AttestationRecord) : Bool :=
  a.signature_valid && a.issuer_trusted && decide (now < a.expiration_date)

/-- An incident blocks the pair (pkg, ver) when it matches the pair and
its status is detected or verified (spec section 4.5 step 1). -/
def incidentBlocks (pkg ver : String) (i : Incident) : Bool :=
  decide (i.package_name = pkg) && decide (i.version = ver) && i.status.isBlocking

/-- An attestation covers the pair (pkg, ver) when its subject matches the
pair exactly (spec section 4.5 step 2). -/
def attestationCovers (pkg ver : String) (a : AttestationRecord) : Bool :=
  decide (a.package_name = pkg) && decide (a.version = ver)

/-- Step 1 of the evaluate algorithm: the blocking incidents on record
for the pair. -/
def blockingIncidentsFor (incs : List Incident) (pkg ver : String) :
    List Incident :=
  incs.filter (incidentBlocks pkg ver)

/-- Step 2 of the evaluate algorithm: the attestations on record covering
the pair. -/
def coveringAttestationsFor (atts : List AttestationRecord) (pkg ver : String) :
    List AttestationRecord :=
  atts.filter (attestationCovers pkg ver)

/-- Step 3 of the evaluate algorithm: the covering attestations that are
valid at evaluation time. -/
def validAttestationsFor (now : Nat) (atts : List AttestationRecord)
    (pkg ver : String) : List AttestationRecord :=
  (coveringAttestationsFor atts pkg ver).filter (attestationValid now)

/-- The wire entry reported for one considered attestation. -/
def attestationInfo (now : Nat) (a : AttestationRecord) : AttestationInfo :=
  { id := a.id, issuer := a.issuer, valid := attestationValid now a,
    reason := if attestationValid now a then "valid" else "invalid",
    expires := some (toString a.expiration_date) }

/-- Modelled from the spec: evaluate of the CI agent (its implementation
under services/ is not under src/), following the decision logic of
docs/architecture.md lines 114-122 and spec section 4.5: block when a
blocking incident exists and no valid attestation covers the pair, allow
on a valid attestation, allow by default otherwise; the block reason names
the blocking incidents. -/
def evaluate (now : Nat) (incs : List Incident) (atts : List AttestationRecord)
    (_projectId pkg ver : String) : CICheckResult :=
  if blockingIncidentsFor incs pkg ver ≠ [] ∧
      validAttestationsFor now atts pkg ver = [] then
    { allowed := false
      reason := "Blocked by incident(s): " ++
        String.intercalate ", " ((blockingIncidentsFor incs pkg ver).map Incident.id)
      required_credentials := ["SafeToUseAttestation"]
      blocking_incidents := (blockingIncidentsFor incs pkg ver).map Incident.id
      attestations := (coveringAttestationsFor atts pkg ver).map (attestationInfo now) }
  else if validAttestationsFor now atts pkg ver ≠ [] then
    { allowed := true
      reason := "Valid SafeToUseAttestation on record"
      required_credentials := []
      blocking_incidents := []
      attestations := (coveringAttestationsFor atts pkg ver).map (attestationInfo now) }
  else
    { allowed := true
      reason := "No active incidents; allowed by default policy"
      required_credentials := []
      blocking_incidents := []
      attestations := (coveringAttestationsFor atts pkg ver).map (attestationInfo now) }

/-- Modelled from the spec: the default time box of a SafeToUseAttestation
when the caller gives no ttl (the attestation MUST expire, spec section 3);
the concrete span is a modelling constant. -/
def defaultAttestationTtl : Nat := 3600

/-- Modelled from the spec: issue of the Credential Codec (section 4.1),
whose implementation in packages/shared is not under src/.  The fresh id
is passed in (issuance generates an opaque unique id); timestamps are
naturals rendered to the wire strings; a SafeToUseAttestation always
receives an expiry (ttl or the default time box), any other type receives
one exactly when a ttl is supplied.  The proof object follows the Base
Credential Structure of docs/architecture.md; the signature bytes are
outside the scope of the settled claims. -/
def issue (freshId : String) (ctype : CredentialType) (issuer_did : String)
    (subject claims : List (String × String)) (now : Nat) (ttl : Option Nat) :
    Credential :=
  { id := freshId
    type := ctype.wireName
    issuer_did := issuer_did
    subject := subject
    issuance_date := toString now
    expiration_date :=
      match ctype, ttl with
      | CredentialType.safeToUse, some t => some (toString (now + t))
      | CredentialType.safeToUse, none =>
          some (toString (now + defaultAttestationTtl))
      | _, some t => some (toString (now + t))
      | _, none => none
    claims := claims
    proof :=
      { type := "HmacSignature2024"
        signature := "hmac:" ++ issuer_did ++ ":" ++ toString now
        verificationMethod := issuer_did ++ "#key-1" } }

/-- Concrete incident used to exercise the evaluate decision. -/
def c4SampleIncident : Incident :=
  { id := "inc-1", package_name := "lodash-utils", version := "1.0.1",
    severity := Severity.critical, status := Status.detected,
    title := "Typosquat", description := "", indicators := [],
    affected_projects := [], credentials := [], created_at := "",
    updated_at := "" }

/-- Concrete CIGate state with an empty package name. -/
def c9SampleState : CIGateState :=
  { projectId := "my-project", packageName := "", version := "1.0.0",
    loading := false, result := none, error := none }

/-- Concrete scanner agent used to exercise graphData. -/
def c10SampleAgent : Agent :=
  { id := "agent-1", did := "did:simulator:scanner", name := "Scanner Agent",
    capabilities := ["security_scan", "dependency_analysis"], endpoint := none,
    last_seen := "", status := "online" }

/-- Concrete incident used to exercise graphData. -/
def c10SampleIncident : Incident :=
  { id := "inc-9", package_name := "lodash-utils", version := "1.0.1",
    severity := Severity.high, status := Status.detected, title := "",
    description := "", indicators := [], affected_projects := [],
    credentials := [], created_at := "", updated_at := "" }

theorem filter_ne_nil_iff {α : Type} (p : α → Bool) (l : List α) :
    l.filter p ≠ [] ↔ ∃ a ∈ l, p a = true := by
  rw [Ne, List.filter_eq_nil_iff]
  push_neg
  simp

theorem validAttestationsFor_ne_nil_iff (now : Nat)
    (atts : List AttestationRecord) (pkg ver : String) :
    validAttestationsFor now atts pkg ver ≠ [] ↔
      ∃ a ∈ atts, attestationCovers pkg ver a = true ∧
        attestationValid now a = true := by
  unfold validAttestationsFor coveringAttestationsFor
  rw [filter_ne_nil_iff]
  constructor
  · rintro ⟨a, ha, hv⟩
    rw [List.mem_filter] at ha
    exact ⟨a, ha.1, ha.2, hv⟩
  · rintro ⟨a, ha, hc, hv⟩
    exact ⟨a, List.mem_filter.mpr ⟨ha, hc⟩, hv⟩

theorem filter_map_eq_nil_of_false {α β : Type} (p : β → Bool) (f : α → β)
    (l : List α) (h : ∀ a, p (f a) = false) : (l.map f).filter p = [] := by
  induction l with
  | nil => rfl
  | cons x xs ih => simp [List.filter_cons, h x, ih]

theorem filter_map_eq_self_of_true {α β : Type} (p : β → Bool) (f : α → β)
    (l : List α) (h : ∀ a, p (f a) = true) : (l.map f).filter p = l.map f := by
  induction l with
  | nil => rfl
  | cons x xs ih => simp [List.filter_cons, h x, ih]

/-- C1: counterexample — the CICheckResult interface that mirrors the
/ci/check-update wire response does not carry the field names the spec
claims: blockingIncidents, requiredCredentialTypes and
attestationsConsidered are all absent from it. -/
theorem c1_decision_fields_counterexample :
    "blockingIncidents" ∉ ciCheckResultFields
    ∧ "requiredCredentialTypes" ∉ ciCheckResultFields
    ∧ "attestationsConsidered" ∉ ciCheckResultFields
    ∧ ciCheckResultFields ≠ specDecisionFields := by decide

/-- C1 (amended): the CICheckResult wire type carries exactly the fields
allowed, reason, required_credentials, blocking_incidents and
attestations, and the CIGate page reads the result through exactly these
names. -/
theorem c1_decision_fields :
    ciCheckResultFields =
      ["allowed", "reason", "required_credentials", "blocking_incidents",
       "attestations"]
    ∧ ciGatePageAccessedFields.all (fun f => ciCheckResultFields.contains f)
        = true
    ∧ ciCheckResultFields.all (fun f => ciGatePageAccessedFields.contains f)
        = true := by decide

/-- C2: counterexample — the CredentialVerification interface that mirrors
the credential verification wire response carries neither signatureValid
nor issuerTrusted. -/
theorem c2_verification_fields_counterexample :
    "signatureValid" ∉ credentialVerificationFields
    ∧ "issuerTrusted" ∉ credentialVerificationFields := by decide

/-- C2 (amended): the verification wire type carries the boolean fields
signature_valid and issuer_verified alongside credential_id and
issuer_did, and the fallback verification object the IncidentDetail page
builds uses exactly the same names. -/
theorem c2_verification_fields :
    credentialVerificationFields =
      ["credential_id", "signature_valid", "issuer_verified", "issuer_did"]
    ∧ incidentDetailFallbackFields = credentialVerificationFields := by decide

/-- C3: counterexample — the credential JSON shape of the code does not
use the section 3 field names: issuerIdentity, issuedAt and expiresAt are
absent from the Credential interface, and the proof object has neither
algorithm nor verificationKeyRef. -/
theorem c3_credential_fields_counterexample :
    "issuerIdentity" ∉ credentialFields
    ∧ "issuedAt" ∉ credentialFields
    ∧ "expiresAt" ∉ credentialFields
    ∧ "algorithm" ∉ credentialProofFields
    ∧ "verificationKeyRef" ∉ credentialProofFields := by decide

/-- C3 (amended): the persisted credential JSON uses the field names id,
type, issuer_did, subject, issuance_date, expiration_date, claims and a
proof object with type, signature and verificationMethod; the dashboard
type and the Base Credential Structure of the architecture document agree
on the top-level names, the docs proof object adding only a created
field. -/
theorem c3_credential_fields :
    credentialFields =
      ["id", "type", "issuer_did", "subject", "issuance_date",
       "expiration_date", "claims", "proof"]
    ∧ credentialFields = docsCredentialFields
    ∧ credentialProofFields = ["type", "signature", "verificationMethod"]
    ∧ credentialProofFields.all
        (fun f => docsCredentialProofFields.contains f) = true
    ∧ "signature" ∈ credentialProofFields := by decide

/-- C5: counterexample — credentials handled by the system carry type
strings outside the claimed closed set: the Dashboard page and the docs
table both use RiskFindingCredential, and the IncidentDetail page uses
FalsePositiveCredential, neither of which is in the spec set RiskFinding,
VerifiedIncident, FalsePositive, SafeToUseAttestation. -/
theorem c5_credential_type_counterexample :
    "RiskFindingCredential" ∈ dashboardCredTypeLiterals
    ∧ "RiskFindingCredential" ∈ docsCredentialTypeNames
    ∧ "RiskFindingCredential" ∉ specCredentialTypeNames
    ∧ "FalsePositiveCredential" ∈ incidentDetailCredTypeLiterals
    ∧ "FalsePositiveCredential" ∉ specCredentialTypeNames := by decide

/-- C5 (amended): every credential type is a member of the closed set
RiskFindingCredential, VerifiedIncidentCredential, FalsePositiveCredential,
SafeToUseAttestation, and every type literal the dashboard pages compare
against lies in that set. -/
theorem c5_credential_type_closed_set :
    (∀ t : CredentialType, t.wireName ∈ docsCredentialTypeNames)
    ∧ dashboardCredTypeLiterals.all
        (fun s => docsCredentialTypeNames.contains s) = true
    ∧ incidentDetailCredTypeLiterals.all
        (fun s => docsCredentialTypeNames.contains s) = true := by
  refine ⟨fun t => ?_, by decide, by decide⟩
  cases t <;> decide

/-- C6: every incident severity is one of critical, high, medium, low and
every incident status is one of detected, verified, false_positive,
mitigated; the filter buttons of the Incidents page enumerate exactly
these values (severity preceded by the all button). -/
theorem c6_incident_enums :
    (∀ s : Severity, s.wireName ∈ severityWireNames)
    ∧ (∀ s : Status, s.wireName ∈ statusWireNames)
    ∧ incidentsPageStatusFilters = statusWireNames
    ∧ incidentsPageSeverityFilters = "all" :: severityWireNames := by
  refine ⟨fun s => ?_, fun s => ?_, rfl, rfl⟩
  · cases s <;> decide
  · cases s <;> decide

/-- C7: a credential issued with type SafeToUseAttestation always carries
an expiry timestamp, whatever ttl is supplied, while a credential of any
other type issued without a ttl carries none. -/
theorem c7_attestation_expiry (fid issuer : String)
    (subject claims : List (String × String)) (now : Nat) :
    (∀ ttl : Option Nat,
      (issue fid CredentialType.safeToUse issuer subject claims now
          ttl).expiration_date.isSome = true)
    ∧ (issue fid CredentialType.riskFinding issuer subject claims now
        none).expiration_date = none
    ∧ (issue fid CredentialType.verifiedIncident issuer subject claims now
        none).expiration_date = none
    ∧ (issue fid CredentialType.falsePositive issuer subject claims now
        none).expiration_date = none := by
  refine ⟨fun ttl => ?_, rfl, rfl, rfl⟩
  cases ttl <;> rfl

/-- C4: evaluate returns BLOCK exactly when some blocking incident
(status detected or verified) exists for the pair and no valid attestation
(signature valid, issuer trusted, not expired) covers the exact pair; a
valid covering attestation forces ALLOW regardless of incidents; absence
of blocking incidents forces ALLOW by default policy; and in the BLOCK
case the decision lists the blocking incident ids and the reason names
them. -/
theorem c4_evaluate_decision (now : Nat) (incs : List Incident)
    (atts : List AttestationRecord) (pid pkg ver : String) :
    ((evaluate now incs atts pid pkg ver).allowed = false ↔
      ((∃ i ∈ incs, incidentBlocks pkg ver i = true) ∧
        ¬ ∃ a ∈ atts, attestationCovers pkg ver a = true ∧
            attestationValid now a = true))
    ∧ ((∃ a ∈ atts, attestationCovers pkg ver a = true ∧
          attestationValid now a = true) →
        (evaluate now incs atts pid pkg ver).allowed = true)
    ∧ ((∀ i ∈ incs, incidentBlocks pkg ver i = false) →
        (evaluate now incs atts pid pkg ver).allowed = true)
    ∧ ((evaluate now incs atts pid pkg ver).allowed = false →
        (evaluate now incs atts pid pkg ver).blocking_incidents =
            (blockingIncidentsFor incs pkg ver).map Incident.id
          ∧ (evaluate now incs atts pid pkg ver).blocking_incidents ≠ []
          ∧ (evaluate now incs atts pid pkg ver).reason =
              "Blocked by incident(s): " ++ String.intercalate ", "
                ((blockingIncidentsFor incs pkg ver).map Incident.id)) := by
  have hblock : blockingIncidentsFor incs pkg ver ≠ [] ↔
      ∃ i ∈ incs, incidentBlocks pkg ver i = true :=
    filter_ne_nil_iff (incidentBlocks pkg ver) incs
  have hvalid := validAttestationsFor_ne_nil_iff now atts pkg ver
  unfold evaluate
  split
  · next h =>
    obtain ⟨h1, h2⟩ := h
    refine ⟨iff_of_true rfl ?_, ?_, ?_, ?_⟩
    · exact ⟨hblock.mp h1, fun hex => (hvalid.mpr hex) h2⟩
    · intro hex
      exact absurd h2 (hvalid.mpr hex)
    · intro hall
      exfalso
      obtain ⟨i, hi, hbi⟩ := hblock.mp h1
      simp [hall i hi] at hbi
    · intro _
      refine ⟨rfl, ?_, rfl⟩
      simpa [List.map_eq_nil_iff] using h1
  · next h =>
    split
    · next h2 =>
      refine ⟨iff_of_false (by simp) ?_, fun _ => rfl, fun _ => rfl,
        fun hfalse => by simp at hfalse⟩
      rintro ⟨hb, hna⟩
      exact hna (hvalid.mp h2)
    · next h2 =>
      have hv : validAttestationsFor now atts pkg ver = [] := by
        by_contra hne
        exact h2 hne
      have hb : blockingIncidentsFor incs pkg ver = [] := by
        by_contra hne
        exact h ⟨hne, hv⟩
      refine ⟨iff_of_false (by simp) ?_, fun _ => rfl, fun _ => rfl,
        fun hfalse => by simp at hfalse⟩
      rintro ⟨hex, -⟩
      exact (hblock.mpr hex) hb

/-- C4 witness: at a concrete store a detected incident for the pair with
no attestations yields BLOCK, and an empty store yields ALLOW. -/
theorem c4_evaluate_decision_witness :
    (evaluate 100 [c4SampleIncident] [] "my-project" "lodash-utils"
        "1.0.1").allowed = false
    ∧ (evaluate 100 [] [] "my-project" "lodash" "4.17.21").allowed = true :=
  ⟨(c4_evaluate_decision 100 [c4SampleIncident] [] "my-project"
        "lodash-utils" "1.0.1").1.mpr
      ⟨⟨c4SampleIncident, List.mem_singleton.mpr rfl, by decide⟩,
        by rintro ⟨a, ha, -⟩; exact absurd ha (List.not_mem_nil a)⟩,
    (c4_evaluate_decision 100 [] [] "my-project" "lodash"
        "4.17.21").2.2.1 (fun i hi => absurd hi (List.not_mem_nil i))⟩

/-- C8: the api request helper rejects with the message API error followed
by the HTTP status exactly when the response is not ok, and returns the
parsed body exactly when it is ok. -/
theorem c8_request_behavior {α : Type} (res : FetchResponse α) :
    (res.ok = false →
      request res = Except.error ("API error: " ++ toString res.status))
    ∧ (res.ok = true → request res = Except.ok res.jsonBody) := by
  unfold request
  constructor
  · intro h
    simp [h]
  · intro h
    simp [h]

/-- C8 witness: a 404 response rejects with the exact message and a 200
response returns its body. -/
theorem c8_request_behavior_witness :
    request { ok := false, status := 404, jsonBody := (0 : Nat) } =
        Except.error "API error: 404"
    ∧ request { ok := true, status := 200, jsonBody := (7 : Nat) } =
        Except.ok 7 :=
  ⟨(c8_request_behavior
      { ok := false, status := 404, jsonBody := (0 : Nat) }).1 rfl,
    (c8_request_behavior
      { ok := true, status := 200, jsonBody := (7 : Nat) }).2 rfl⟩

/-- C9: when the package name or the version is empty, checkPackage sets
the validation message as the error, does not call api.checkCI, and leaves
loading and result (and the inputs themselves) unchanged. -/
theorem c9_checkPackage_guard (s : CIGateState)
    (r : Except Unit CICheckResult)
    (h : s.packageName = "" ∨ s.version = "") :
    (checkPackage s r).state.error = some requiredFieldsError
    ∧ (checkPackage s r).apiCalled = false
    ∧ (checkPackage s r).state.loading = s.loading
    ∧ (checkPackage s r).state.result = s.result
    ∧ (checkPackage s r).state.packageName = s.packageName
    ∧ (checkPackage s r).state.version = s.version := by
  unfold checkPackage
  rw [if_pos h]
  exact ⟨rfl, rfl, rfl, rfl, rfl, rfl⟩

/-- C9 witness: applying the guard at a state with an empty package name
sets the validation error and skips the api call. -/
theorem c9_checkPackage_guard_witness :
    (checkPackage c9SampleState (Except.error ())).state.error =
        some requiredFieldsError
    ∧ (checkPackage c9SampleState (Except.error ())).apiCalled = false
    ∧ (checkPackage c9SampleState (Except.error ())).state.result = none :=
  ⟨(c9_checkPackage_guard c9SampleState (Except.error ()) (Or.inl rfl)).1,
    (c9_checkPackage_guard c9SampleState (Except.error ()) (Or.inl rfl)).2.1,
    ((c9_checkPackage_guard c9SampleState (Except.error ())
        (Or.inl rfl)).2.2.2.1).trans rfl⟩

theorem filterMap_const_some {α β : Type} (g : α → β) (l : List α) :
    l.filterMap (fun a => some (g a)) = l.map g := by
  induction l with
  | nil => rfl
  | cons x xs ih => simp [List.filterMap_cons, ih]

theorem filterMap_const_none {α β : Type} (l : List α) :
    l.filterMap (fun _ => (none : Option β)) = [] := by
  induction l with
  | nil => rfl
  | cons x xs ih => simp [List.filterMap_cons, ih]

/-- C10: the graph data contains exactly one hub node; its agent nodes are
exactly one per agent, each linked from the hub; its incident nodes are
exactly those of the first five incidents, hence at most five; every
incident link originates at the first agent whose capabilities include
security_scan, and no incident link exists when no such agent does. -/
theorem c10_graphData_shape (agents : List Agent) (incidents : List Incident) :
    ((graphData agents incidents).nodes.filter
        (fun n => decide (n.type = GNodeType.hub))).length = 1
    ∧ (graphData agents incidents).nodes.filter
        (fun n => decide (n.type = GNodeType.agent)) = agents.map mkAgentNode
    ∧ (∀ a ∈ agents,
        ({ source := "hub", target := a.did, type := GLinkType.agent } :
            GraphLink) ∈ (graphData agents incidents).links)
    ∧ (graphData agents incidents).nodes.filter
        (fun n => decide (n.type = GNodeType.incident))
        = (incidents.take 5).map mkIncidentNode
    ∧ ((graphData agents incidents).nodes.filter
        (fun n => decide (n.type = GNodeType.incident))).length ≤ 5
    ∧ (∀ sc, findScanner agents = some sc →
        (graphData agents incidents).links.filter
            (fun l => decide (l.type = GLinkType.incident))
          = (incidents.take 5).map (fun i =>
              { source := sc.did, target := "incident-" ++ i.id,
                type := GLinkType.incident }))
    ∧ (findScanner agents = none →
        (graphData agents incidents).links.filter
          (fun l => decide (l.type = GLinkType.incident)) = []) := by
  have hAhub : (agents.map mkAgentNode).filter
      (fun n => decide (n.type = GNodeType.hub)) = [] :=
    filter_map_eq_nil_of_false _ _ _ (fun a => rfl)
  have hIhub : ((incidents.take 5).map mkIncidentNode).filter
      (fun n => decide (n.type = GNodeType.hub)) = [] :=
    filter_map_eq_nil_of_false _ _ _ (fun i => rfl)
  have hAagent : (agents.map mkAgentNode).filter
      (fun n => decide (n.type = GNodeType.agent)) = agents.map mkAgentNode :=
    filter_map_eq_self_of_true _ _ _ (fun a => rfl)
  have hIagent : ((incidents.take 5).map mkIncidentNode).filter
      (fun n => decide (n.type = GNodeType.agent)) = [] :=
    filter_map_eq_nil_of_false _ _ _ (fun i => rfl)
  have hAinc : (agents.map mkAgentNode).filter
      (fun n => decide (n.type = GNodeType.incident)) = [] :=
    filter_map_eq_nil_of_false _ _ _ (fun a => rfl)
  have hIinc : ((incidents.take 5).map mkIncidentNode).filter
      (fun n => decide (n.type = GNodeType.incident))
      = (incidents.take 5).map mkIncidentNode :=
    filter_map_eq_self_of_true _ _ _ (fun i => rfl)
  have hLagent : (agents.map (fun a =>
        ({ source := "hub", target := a.did, type := GLinkType.agent } :
          GraphLink))).filter
      (fun l => decide (l.type = GLinkType.incident)) = [] :=
    filter_map_eq_nil_of_false _ _ _ (fun a => rfl)
  have e1 : (graphData agents incidents).nodes =
      hubNode :: (agents.map mkAgentNode ++
        (incidents.take 5).map mkIncidentNode) := rfl
  refine ⟨?_, ?_, ?_, ?_, ?_, ?_, ?_⟩
  · rw [e1, List.filter_cons_of_pos rfl, List.filter_append, hAhub, hIhub]
    rfl
  · rw [e1, List.filter_cons_of_neg (by decide), List.filter_append,
      hAagent, hIagent, List.append_nil]
  · intro a ha
    exact List.mem_append_left _ (List.mem_map_of_mem _ ha)
  · rw [e1, List.filter_cons_of_neg (by decide), List.filter_append,
      hAinc, hIinc, List.nil_append]
  · have hlen : (graphData agents incidents).nodes.filter
        (fun n => decide (n.type = GNodeType.incident))
        = (incidents.take 5).map mkIncidentNode := by
      rw [e1, List.filter_cons_of_neg (by decide), List.filter_append,
        hAinc, hIinc, List.nil_append]
    rw [hlen, List.length_map, List.length_take]
    exact min_le_left _ _
  · intro sc hsc
    have hmap : (incidents.take 5).filterMap (fun i =>
        (findScanner agents).map (fun s =>
          ({ source := s.did, target := "incident-" ++ i.id,
             type := GLinkType.incident } : GraphLink)))
        = (incidents.take 5).map (fun i =>
            ({ source := sc.did, target := "incident-" ++ i.id,
               type := GLinkType.incident } : GraphLink)) := by
      rw [hsc]
      exact filterMap_const_some _ _
    have hIlinks : ((incidents.take 5).map (fun i =>
        ({ source := sc.did, target := "incident-" ++ i.id,
           type := GLinkType.incident } : GraphLink))).filter
        (fun l => decide (l.type = GLinkType.incident))
        = (incidents.take 5).map (fun i =>
            ({ source := sc.did, target := "incident-" ++ i.id,
               type := GLinkType.incident } : GraphLink)) :=
      filter_map_eq_self_of_true _ _ _ (fun i => rfl)
    simp only [graphData, List.filter_append, hLagent, hmap, hIlinks,
      List.nil_append]
  · intro hsc
    have hmap : (incidents.take 5).filterMap (fun i =>
        (findScanner agents).map (fun s =>
          ({ source := s.did, target := "incident-" ++ i.id,
             type := GLinkType.incident } : GraphLink))) = [] := by
      rw [hsc]
      exact filterMap_const_none _
    simp only [graphData, List.filter_append, hLagent, hmap,
      List.filter_nil, List.nil_append]

/-- C10 witness: for one scanner agent and one incident, the hub link of
the agent is present and the single incident link originates at the
scanner. -/
theorem c10_graphData_shape_witness :
    findScanner [c10SampleAgent] = some c10SampleAgent
    ∧ ({ source := "hub", target := c10SampleAgent.did,
         type := GLinkType.agent } : GraphLink)
        ∈ (graphData [c10SampleAgent] [c10SampleIncident]).links
    ∧ (graphData [c10SampleAgent] [c10SampleIncident]).links.filter
        (fun l => decide (l.type = GLinkType.incident))
      = [{ source := c10SampleAgent.did,
           target := "incident-" ++ c10SampleIncident.id,
           type := GLinkType.incident }] := by
  have hsc : findScanner [c10SampleAgent] = some c10SampleAgent := by decide
  refine ⟨hsc, ?_, ?_⟩
  · exact (c10_graphData_shape [c10SampleAgent] [c10SampleIncident]).2.2.1
      c10SampleAgent (List.mem_singleton.mpr rfl)
  · have h := (c10_graphData_shape [c10SampleAgent]
      [c10SampleIncident]).2.2.2.2.2.1 c10SampleAgent hsc
    rw [h]
    rfl

end SwarmShield
